import Mathlib

/-!
Verification of the THEPROJECT360 daily-reporting application's core logic.

The development shallowly embeds the TypeScript source:
JavaScript numbers are modelled as `ℚ` (the arithmetic under scrutiny is
exact), `undefined`/`null`-able values as `Option`, and date strings by
the result of parsing them (`new Date(s).getTime()` in milliseconds,
`none` for a missing or unparsable string), since every use of a date
string in the relevant code goes through `toDate`/`parseDateSafely`.
JavaScript objects used as string-keyed maps (`Record<string, ...>`)
are modelled as association lists where assignment replaces the binding
in place or appends a fresh one.
-/

namespace Project360

/-! ## JavaScript primitives -/

/-- JavaScript `Math.round`: rounds half toward positive infinity. -/
def jsRound (q : ℚ) : ℤ := Int.floor (q + 1/2)

/-- `clamp` from `EntryForm.tsx`: `Math.max(min, Math.min(max, n))`. -/
def clamp (n mn mx : ℚ) : ℚ := max mn (min mx n)

/-- `num` from `EntryForm.tsx`: `Number(v)`, `NaN`/`undefined` mapped to 0.
On an `Option ℚ` field this is `getD 0`. -/
def num (v : Option ℚ) : ℚ := v.getD 0

/-- JavaScript `a || b` where `a` is a possibly-undefined string and `b` a
string: `a` wins when it is defined and non-empty (truthy). -/
def jsOrStr (a : Option String) (b : String) : String :=
  match a with
  | some s => if s = "" then b else s
  | none => b

/-- JavaScript `a || b` on two possibly-undefined strings. -/
def jsOrOpt (a b : Option String) : Option String :=
  match a with
  | some s => if s = "" then b else some s
  | none => b

/-- JavaScript `a || b` where `a` is a possibly-undefined number and `b` a
number: `a` wins when defined and nonzero (truthy). -/
def jsOrNum (a : Option ℚ) (b : ℚ) : ℚ :=
  match a with
  | some q => if q = 0 then b else q
  | none => b

/-- JavaScript `s.toUpperCase()` (ASCII range, the one exercised by the
resource and activity codes at hand): uppercase each character. -/
def jsToUpper (s : String) : String := String.mk (s.data.map Char.toUpper)

/-! ## Date and duration helpers (`EntryForm.tsx`) -/

/-- Milliseconds in one day, the divisor used by `dayDiff`. -/
def msPerDay : ℚ := 86400000

/-- `dayDiff` from `EntryForm.tsx`: plain calendar subtraction in days,
`Math.round((b - a) / 86400000)`; `null` when either date is missing.
Inputs are the `toDate` parse results of the two date strings. -/
def dayDiff (a b : Option ℤ) : Option ℤ :=
  match a, b with
  | some a, some b => some (jsRound (((b - a : ℤ) : ℚ) / msPerDay))
  | _, _ => none

/-- `inclusiveDays` from `EntryForm.tsx`: `dayDiff + 1`, `null` propagated. -/
def inclusiveDays (start finish : Option ℤ) : Option ℤ :=
  match dayDiff start finish with
  | none => none
  | some d => some (d + 1)

/-- `safeDays` from `EntryForm.tsx`: `d && d > 0 ? d : 0` over
`inclusiveDays` (so `null`, zero and negative all collapse to 0). -/
def safeDays (start finish : Option ℤ) : ℤ :=
  match inclusiveDays start finish with
  | some d => if 0 < d then d else 0
  | none => 0

/-! ## Domain records (`types.ts`) -/

/-- `BaseEntry` from `types.ts`: one resource line item. Optional fields
are `Option`; `quantity` is a required number. -/
structure BaseEntry where
  id : String
  code : String
  name : String
  quantity : ℚ
  unit : String
  cost : Option ℚ
  overtime : Option ℚ
  comments : Option String
  company : Option String
  trade : Option String
deriving DecidableEq

/-- `RiskEntry` from `types.ts`; the enumerations are their string values
(`"Low"`, `"Open"`, ...). -/
structure RiskEntry where
  id : String
  code : String
  description : String
  likelihood : String
  impact : String
  status : String
  mitigation : String
deriving DecidableEq

/-- `ActivityEntry` from `types.ts`. The four date-string fields are
modelled by their parse results (see module docstring). -/
structure ActivityEntry where
  id : String
  activityId : String
  order : ℕ
  description : String
  responsiblePerson : String
  workCategory : String
  detailedDescription : String
  plannedCompletion : Option ℚ
  plannedQuantity : Option ℚ
  actualQuantity : Option ℚ
  quantityUnit : Option String
  referenceCode : String
  workArea : String
  stationGrid : String
  plannedStart : Option ℤ
  plannedFinish : Option ℤ
  actualStart : Option ℤ
  actualFinish : Option ℤ
  isMilestone : Bool
  manpower : List BaseEntry
  material : List BaseEntry
  equipment : List BaseEntry
  subcontractor : List BaseEntry
  risks : List RiskEntry
deriving DecidableEq

/-- `DailyReport` from `types.ts` (the `date` document key stays a string;
it is only compared, never date-parsed, in the code under study). -/
structure DailyReport where
  id : String
  date : String
  userId : String
  createdAt : ℤ
  updatedAt : ℤ
  activities : List ActivityEntry
deriving DecidableEq

/-! ## Resource memory (`types.ts` `ResourceMemoryItem` / `ResourceMemory`) -/

/-- `ResourceMemoryItem` from `types.ts`: every field optional. -/
structure ResourceMemoryItem where
  name : Option String := none
  description : Option String := none
  trade : Option String := none
  unit : Option String := none
  cost : Option ℚ := none
  quantity : Option ℚ := none
  company : Option String := none
  comments : Option String := none
  category : Option String := none
  likelihood : Option String := none
  impact : Option String := none
  mitigation : Option String := none
  status : Option String := none
deriving DecidableEq

/-- The five memory categories (`EntryCategory | 'risk'`). -/
inductive MemCategory where
  | manpower
  | material
  | equipment
  | subcontractor
  | risk
deriving DecidableEq

/-- `ResourceMemory` from `types.ts`: one `Record<string, ResourceMemoryItem>`
per category, as association lists keyed by resource code. -/
structure ResourceMemory where
  manpower : List (String × ResourceMemoryItem)
  material : List (String × ResourceMemoryItem)
  equipment : List (String × ResourceMemoryItem)
  subcontractor : List (String × ResourceMemoryItem)
  risk : List (String × ResourceMemoryItem)
deriving DecidableEq

/-- `emptyResourceMemory` from `EntryForm.tsx`. -/
def emptyResourceMemory : ResourceMemory :=
  { manpower := [], material := [], equipment := [], subcontractor := [], risk := [] }

/-- JavaScript property read `obj[k]` on a string-keyed record. -/
def assocGet (l : List (String × ResourceMemoryItem)) (k : String) :
    Option ResourceMemoryItem :=
  (l.find? (fun p => p.1 == k)).map Prod.snd

/-- JavaScript property write `obj[k] = v` on a string-keyed record:
replaces an existing binding in place, else appends. -/
def assocSet (l : List (String × ResourceMemoryItem)) (k : String)
    (v : ResourceMemoryItem) : List (String × ResourceMemoryItem) :=
  match l with
  | [] => [(k, v)]
  | (k', v') :: rest => if k' = k then (k, v) :: rest else (k', v') :: assocSet rest k v

/-- The per-category map of a `ResourceMemory` (`resourceMemory[category]`). -/
def memField (m : ResourceMemory) : MemCategory → List (String × ResourceMemoryItem)
  | .manpower => m.manpower
  | .material => m.material
  | .equipment => m.equipment
  | .subcontractor => m.subcontractor
  | .risk => m.risk

/-- `resourceMemory[category][key]`. -/
def memLookup (m : ResourceMemory) (cat : MemCategory) (k : String) :
    Option ResourceMemoryItem :=
  assocGet (memField m cat) k

/-- `resourceMemory[category][key] = v`. -/
def memSet (m : ResourceMemory) (cat : MemCategory) (k : String)
    (v : ResourceMemoryItem) : ResourceMemory :=
  match cat with
  | .manpower => { m with manpower := assocSet m.manpower k v }
  | .material => { m with material := assocSet m.material k v }
  | .equipment => { m with equipment := assocSet m.equipment k v }
  | .subcontractor => { m with subcontractor := assocSet m.subcontractor k v }
  | .risk => { m with risk := assocSet m.risk k v }

/-! ## Smart-memory code-blur fill-in (`EntryForm.tsx` `handleResourceCodeBlur`) -/

/-- The resource-row update applied by `handleResourceCodeBlur` when a
remembered template `mem` is found for the row's uppercased code
(`EntryForm.tsx` line 721): each field is computed with JavaScript `||`
(the template's value when truthy, the row's otherwise), `cost` with an
explicit `!== undefined` test, and `code` is set to the uppercased code. -/
def applyMemoryToItem (mem : ResourceMemoryItem) (upperCode : String)
    (i : BaseEntry) : BaseEntry :=
  { i with
    name := jsOrStr mem.name i.name
    unit := jsOrStr mem.unit i.unit
    cost := match mem.cost with
      | some c => some c
      | none => i.cost
    trade := jsOrOpt mem.trade i.trade
    company := jsOrOpt mem.company i.company
    quantity := jsOrNum mem.quantity i.quantity
    comments := jsOrOpt mem.comments i.comments
    code := upperCode }

/-- The risk-row update applied by `handleResourceCodeBlur`'s risk branch
(`EntryForm.tsx` line 719). -/
def applyMemoryToRisk (mem : ResourceMemoryItem) (upperCode : String)
    (r : RiskEntry) : RiskEntry :=
  { r with
    description := jsOrStr mem.description r.description
    likelihood := jsOrStr mem.likelihood r.likelihood
    impact := jsOrStr mem.impact r.impact
    status := jsOrStr mem.status r.status
    mitigation := jsOrStr mem.mitigation r.mitigation
    code := upperCode }

/-- Row-level core of `handleResourceCodeBlur` (`EntryForm.tsx` lines
712-726) for a resource (non-risk) row: empty codes are ignored, the
memory is consulted under the uppercased code, and on a hit the row is
rewritten by `applyMemoryToItem` (the surrounding activity/item-id mapping
only locates this row and is elided). -/
def resourceCodeBlurItem (memory : ResourceMemory) (cat : MemCategory)
    (code : String) (i : BaseEntry) : BaseEntry :=
  if code = "" then i
  else
    let upperCode := jsToUpper code
    match memLookup memory cat upperCode with
    | some mem => applyMemoryToItem mem upperCode i
    | none => i

/-! ## Saving resource memory on report save (`EntryForm.tsx` `handleSave`) -/

/-- The memory record written for a manpower row on save
(`EntryForm.tsx` line 829). -/
def savedManpowerItem (m : BaseEntry) : ResourceMemoryItem :=
  { name := some m.name, trade := m.trade, unit := some m.unit,
    cost := m.cost, quantity := some m.quantity, comments := m.comments }

/-- The memory record written for a material or equipment row on save
(`EntryForm.tsx` lines 830-831). -/
def savedResourceItem (m : BaseEntry) : ResourceMemoryItem :=
  { name := some m.name, unit := some m.unit,
    cost := m.cost, quantity := some m.quantity, comments := m.comments }

/-- The memory record written for a subcontractor row on save
(`EntryForm.tsx` line 832). -/
def savedSubcontractorItem (m : BaseEntry) : ResourceMemoryItem :=
  { name := some m.name, company := m.company, unit := some m.unit,
    cost := m.cost, quantity := some m.quantity, comments := m.comments }

/-- The memory record written for a risk row on save
(`EntryForm.tsx` line 833). -/
def savedRiskItem (r : RiskEntry) : ResourceMemoryItem :=
  { description := some r.description, likelihood := some r.likelihood,
    impact := some r.impact, mitigation := some r.mitigation,
    status := some r.status }

/-- Memory update for one activity inside `handleSave` (`EntryForm.tsx`
lines 828-834): every row with a truthy (non-empty) code is written into
the category map keyed by the code exactly as typed. -/
def saveActivityToMemory (mem : ResourceMemory) (act : ActivityEntry) :
    ResourceMemory :=
  let m1 := act.manpower.foldl
    (fun mm m => if m.code ≠ "" then memSet mm .manpower m.code (savedManpowerItem m) else mm) mem
  let m2 := act.material.foldl
    (fun mm m => if m.code ≠ "" then memSet mm .material m.code (savedResourceItem m) else mm) m1
  let m3 := act.equipment.foldl
    (fun mm m => if m.code ≠ "" then memSet mm .equipment m.code (savedResourceItem m) else mm) m2
  let m4 := act.subcontractor.foldl
    (fun mm m => if m.code ≠ "" then memSet mm .subcontractor m.code (savedSubcontractorItem m) else mm) m3
  act.risks.foldl
    (fun mm r => if r.code ≠ "" then memSet mm .risk r.code (savedRiskItem r) else mm) m4

/-- The full resource-memory snapshot written by `handleSave`
(`EntryForm.tsx` lines 827-835). -/
def handleSaveMemory (mem : ResourceMemory) (activities : List ActivityEntry) :
    ResourceMemory :=
  activities.foldl saveActivityToMemory mem

/-! ## PERT cost model (`EntryForm.tsx` `buildCostModelForActivity`) -/

/-- The `daily` record of `CostModel`. -/
structure CostDaily where
  manpower : ℚ
  material : ℚ
  equipment : ℚ
  subcontractor : ℚ
  total : ℚ
deriving DecidableEq

/-- The `total` record of `CostModel`. -/
structure CostTotals where
  manpower : ℚ
  material : ℚ
  equipment : ℚ
  subcontractor : ℚ
  mostLikely : ℚ
  optimistic : ℚ
  pessimistic : ℚ
  stdDev : ℚ
  expected : ℚ
deriving DecidableEq

/-- `CostModel` from `EntryForm.tsx`. -/
structure CostModel where
  plannedDays : ℤ
  daily : CostDaily
  total : CostTotals
deriving DecidableEq

/-- `buildCostModelForActivity` from `EntryForm.tsx` (lines 243-305):
daily category costs from the resource lists (overtime added to quantity
for manpower only), totals scaled by the clamped planned duration, PERT
multipliers 0.90 and 1.21, `stdDev` and `expected` from the three points. -/
def buildCostModelForActivity (a : ActivityEntry) : CostModel :=
  let plannedDays := safeDays a.plannedStart a.plannedFinish
  let manpowerDaily := a.manpower.foldl
    (fun sum m => sum + (m.quantity + num m.overtime) * num m.cost) 0
  let equipmentDaily := a.equipment.foldl
    (fun sum e => sum + e.quantity * num e.cost) 0
  let materialDaily := a.material.foldl
    (fun sum m => sum + m.quantity * num m.cost) 0
  let subcontractorDaily := a.subcontractor.foldl
    (fun sum s => sum + s.quantity * num s.cost) 0
  let dailyTotal := manpowerDaily + equipmentDaily + materialDaily + subcontractorDaily
  let mostLikely := dailyTotal * (plannedDays : ℚ)
  let optimistic := mostLikely * (90/100)
  let pessimistic := mostLikely * (121/100)
  let stdDev := (pessimistic - optimistic) / 6
  let expected := (optimistic + 4 * mostLikely + pessimistic) / 6
  { plannedDays := plannedDays
    daily := { manpower := manpowerDaily, material := materialDaily,
               equipment := equipmentDaily, subcontractor := subcontractorDaily,
               total := dailyTotal }
    total := { manpower := manpowerDaily * (plannedDays : ℚ),
               material := materialDaily * (plannedDays : ℚ),
               equipment := equipmentDaily * (plannedDays : ℚ),
               subcontractor := subcontractorDaily * (plannedDays : ℚ),
               mostLikely := mostLikely, optimistic := optimistic,
               pessimistic := pessimistic, stdDev := stdDev,
               expected := expected } }

/-! ## Derived schedule metrics (`EntryForm.tsx` `formula`, lines 896-934) -/

/-- `Number(act.plannedQuantity ?? 0)`. -/
def plannedQtyNum (a : ActivityEntry) : ℚ := a.plannedQuantity.getD 0

/-- `Number(act.actualQuantity ?? 0)`. -/
def actualQtyNum (a : ActivityEntry) : ℚ := a.actualQuantity.getD 0

/-- `plannedPctAsOn` from the `formula` memo (`EntryForm.tsx` lines
909-915): 100 when the as-on date is at or past the planned finish, 0 at
or before the planned start, otherwise the clamped linear interpolation
of inclusive days; `null` when any of the three dates is missing. -/
def plannedPctAsOn (a : ActivityEntry) (asOnDate : Option ℤ) : Option ℚ :=
  match a.plannedStart, a.plannedFinish, asOnDate with
  | some ps, some pf, some ao =>
    if pf ≤ ao then some 100
    else if ao ≤ ps then some 0
    else
      match inclusiveDays (some ps) (some pf), inclusiveDays (some ps) (some ao) with
      | some total, some elapsed =>
        if total ≠ 0 ∧ elapsed ≠ 0 then
          some (clamp (((elapsed : ℚ) / (total : ℚ)) * 100) 0 100)
        else none
      | _, _ => none
  | _, _, _ => none

/-- `plannedQtyExpected` from the `formula` memo (line 918). -/
def plannedQtyExpected (a : ActivityEntry) (asOnDate : Option ℤ) : Option ℚ :=
  match plannedPctAsOn a asOnDate with
  | some p => some (plannedQtyNum a * p / 100)
  | none => none

/-- `shortfall` from the `formula` memo (line 919): expected-minus-actual,
falling back to planned-minus-actual when the expected quantity is
undefined and the planned quantity is truthy. -/
def shortfall (a : ActivityEntry) (asOnDate : Option ℤ) : Option ℚ :=
  match plannedQtyExpected a asOnDate with
  | some v => some (v - actualQtyNum a)
  | none => if plannedQtyNum a ≠ 0 then some (plannedQtyNum a - actualQtyNum a) else none

/-! ## Activity id formatting and reindexing (`EntryForm.tsx` lines 15-18) -/

/-- JavaScript `s.padStart(5, '0')`. -/
def padStart5 (s : String) : String :=
  if 5 ≤ s.length then s else String.mk (List.replicate (5 - s.length) '0') ++ s

/-- `formatActId` from `EntryForm.tsx`: prefixes `ACT-` and zero-pads the
number to 5 digits. -/
def formatActId (n : ℕ) : String := "ACT-" ++ padStart5 (toString n)

/-- Index-carrying unfolding of `acts.map((a, idx) => ...)`. -/
def reindexFrom (i : ℕ) : List ActivityEntry → List ActivityEntry
  | [] => []
  | a :: rest =>
    { a with order := i + 1, activityId := formatActId (i + 1) } :: reindexFrom (i + 1) rest

/-- `reindexActivities` from `EntryForm.tsx`: assigns `order = idx + 1`
and `activityId = formatActId(idx + 1)` positionally. -/
def reindexActivities (acts : List ActivityEntry) : List ActivityEntry :=
  reindexFrom 0 acts

/-! ## Ripple shift (`EntryForm.tsx` `StorageService.rippleShiftActivityIds`,
lines 139-180) -/

/-- The regex `/(.*?)(\d+)/` applied to a string: the characters before
the first digit, and the maximal digit run starting there; `none` when
the string has no digit. -/
def firstDigitSplit (s : String) : Option (String × String) :=
  let pre := s.data.takeWhile (fun ch => !ch.isDigit)
  let rest := s.data.drop pre.length
  match rest with
  | [] => none
  | _ => some (String.mk pre, String.mk (rest.takeWhile Char.isDigit))

/-- `parseInt` on a digit string. -/
def digitsVal (s : String) : ℕ :=
  s.data.foldl (fun n ch => n * 10 + (ch.toNat - 48)) 0

/-- `getNum` from the ripple shift: the value of the first digit run,
0 when there is none. -/
def getNum (s : String) : ℕ :=
  match firstDigitSplit s with
  | some (_, d) => digitsVal d
  | none => 0

/-- `aId.match(/^[^\d]+/)?.[0] || fallback`: the non-empty leading
non-digit run, else the fallback. -/
def leadingNonDigitsOr (s fallback : String) : String :=
  let pre := s.data.takeWhile (fun ch => !ch.isDigit)
  match pre with
  | [] => fallback
  | _ => String.mk pre

/-- The per-activity rewrite inside the ripple shift: an activity whose
prefix matches the conflict prefix case-insensitively and whose number is
at least the conflict number gets `prefix + pad5(n + 1)`; all others are
returned unchanged. -/
def rippleShiftActivity (cPfx : String) (conflictNum : ℕ) (a : ActivityEntry) :
    ActivityEntry :=
  let aId := a.activityId
  let n := getNum aId
  let p := leadingNonDigitsOr aId cPfx
  if jsToUpper p = jsToUpper cPfx ∧ conflictNum ≤ n then
    { a with activityId := p ++ padStart5 (toString (n + 1)) }
  else a

/-- `StorageService.rippleShiftActivityIds` from `EntryForm.tsx`, as the
pure transformation it applies to the user's full report collection (the
Firestore batch write, and the `updatedAt` touch on changed documents,
are the persistence of this result). A conflict id without digits is a
no-op; an empty conflict prefix falls back to `ACT-`. -/
def rippleShiftActivityIds (conflictId : String) (reports : List DailyReport) :
    List DailyReport :=
  match firstDigitSplit conflictId with
  | none => reports
  | some (pre, dig) =>
    let cPfx := if pre = "" then "ACT-" else pre
    let conflictNum := digitsVal dig
    reports.map (fun r =>
      { r with activities := r.activities.map (rippleShiftActivity cPfx conflictNum) })

/-! ## CSV field escaping (`part_002` `escapeCSV`, `part_005` exporter `c`) -/

/-- `str.replace(/"/g, '""')`. -/
def dupQuotes (s : String) : String :=
  String.mk (s.data.foldr (fun ch acc => if ch == '"' then '"' :: '"' :: acc else ch :: acc) [])

/-- `escapeCSV` from the full-history exporter (`part_002` lines 159-164):
`null`/`undefined` to empty, quote-wrap (doubling internal quotes) when
the string matches `[",\n\r]`, else verbatim. String-valued fields are
modelled; numeric fields stringify without any of the escaped characters. -/
def escapeCSV (v : Option String) : String :=
  match v with
  | none => ""
  | some s =>
    if s.data.any (fun ch => ch == '"' || ch == ',' || ch == '\n' || ch == '\r') then
      "\"" ++ dupQuotes s ++ "\""
    else s

/-- The whitespace class stripped by JavaScript `String.prototype.trim`
and by `Number(string)` conversion. -/
def jsWhitespaceChar (ch : Char) : Bool :=
  ch == ' ' || ch == '\t' || ch == '\n' || ch == '\r' || ch == '\x0b' ||
  ch == '\x0c' || ch == ' ' || ch == '﻿'

/-- JavaScript `str.trim()`. -/
def jsTrim (s : String) : String :=
  String.mk (((s.data.dropWhile jsWhitespaceChar).reverse.dropWhile jsWhitespaceChar).reverse)

/-- Hexadecimal digit test for `0x` literals. -/
def isHexDigitJs (ch : Char) : Bool :=
  ch.isDigit || decide ('a' ≤ ch ∧ ch ≤ 'f') || decide ('A' ≤ ch ∧ ch ≤ 'F')

/-- Recognizer for the exponent-or-end tail of a decimal literal. -/
def expTail (l : List Char) : Bool :=
  match l with
  | [] => true
  | ch :: rest =>
    (ch == 'e' || ch == 'E') &&
      (let body := match rest with
        | s :: r => if s == '+' || s == '-' then r else rest
        | [] => rest
       !body.isEmpty && body.all Char.isDigit)

/-- Recognizer for an unsigned decimal literal
(`Digits ['.' Digits?] Exp? | '.' Digits Exp?`). -/
def unsignedDecimal (l : List Char) : Bool :=
  let intPart := l.takeWhile Char.isDigit
  let rest := l.drop intPart.length
  if intPart.isEmpty then
    match rest with
    | '.' :: rest2 =>
      let frac := rest2.takeWhile Char.isDigit
      !frac.isEmpty && expTail (rest2.drop frac.length)
    | _ => false
  else
    match rest with
    | '.' :: rest2 =>
      let frac := rest2.takeWhile Char.isDigit
      expTail (rest2.drop frac.length)
    | _ => expTail rest

/-- Recognizer for an optionally signed decimal literal or `Infinity`. -/
def signedDecimalOrInf (l : List Char) : Bool :=
  let body := match l with
    | ch :: r => if ch == '+' || ch == '-' then r else l
    | [] => l
  body == "Infinity".data || unsignedDecimal body

/-- `!isNaN(str)` for a string: whether JavaScript `Number(str)` yields a
number (after trimming; empty converts to 0; decimal, `Infinity`, and
unsigned `0x`/`0o`/`0b` literals are numbers). -/
def jsStringIsNumeric (s : String) : Bool :=
  let t := (jsTrim s).data
  match t with
  | [] => true
  | '0' :: x :: rest =>
    if x == 'x' || x == 'X' then !rest.isEmpty && rest.all isHexDigitJs
    else if x == 'o' || x == 'O' then !rest.isEmpty && rest.all (fun ch => decide ('0' ≤ ch ∧ ch ≤ '7'))
    else if x == 'b' || x == 'B' then !rest.isEmpty && rest.all (fun ch => ch == '0' || ch == '1')
    else signedDecimalOrInf t
  | _ => signedDecimalOrInf t

/-- The field escaper `c` of the positional exporter
(`part_005` `exportToCSV`, lines 176-184): `null`/`undefined` to empty;
values passing `!isNaN(val) && str.trim() !== ''` returned verbatim;
otherwise quote-wrap (doubling internal quotes) when the string contains
`,`, `"` or a newline, else verbatim. -/
def cEscape (v : Option String) : String :=
  match v with
  | none => ""
  | some str =>
    if jsStringIsNumeric str && !(jsTrim str == "") then str
    else if str.data.any (fun ch => ch == ',' || ch == '"' || ch == '\n') then
      "\"" ++ dupQuotes str ++ "\""
    else str

/-! ## Report reads feeding the views (`firestoreService.ts` `getReports`) -/

/-- Lexicographic comparison of character lists by code point, the order
Firestore applies to string-valued fields such as `date`. -/
def charListLe : List Char → List Char → Bool
  | [], _ => true
  | _ :: _, [] => false
  | a :: as, b :: bs =>
    if decide (a.toNat < b.toNat) then true
    else if decide (b.toNat < a.toNat) then false
    else charListLe as bs

/-- String order on the `date` field. -/
def strLe (a b : String) : Bool := charListLe a.data b.data

/-- Descending insertion by the string-ordered `date` field. -/
def insertByDateDesc (r : DailyReport) : List DailyReport → List DailyReport
  | [] => [r]
  | x :: xs => if strLe r.date x.date then x :: insertByDateDesc r xs else r :: x :: xs

/-- The `orderBy("date", "desc")` collection scan over the user's stored
reports. -/
def sortByDateDesc (l : List DailyReport) : List DailyReport :=
  l.foldr insertByDateDesc []

/-- `getReports` from `firestoreService.ts` (both variants, lines 67-82 and
354-365): the stored collection ordered by `date` descending, truncated by
`limit(50)`. -/
def getReports (stored : List DailyReport) : List DailyReport :=
  (sortByDateDesc stored).take 50

/-! ## Generative-AI service (`part_003` `GeminiService`) -/

/-- One turn of chat history. -/
structure ChatTurn where
  role : String
  text : String
deriving DecidableEq

/-- Outcome of the external `generateContent` call: a thrown error, or a
response whose `text` is a string or `undefined`. -/
inductive GenAiResult where
  | apiError (message : String)
  | ok (text : Option String)
deriving DecidableEq

/-- `GeminiService.analyzeReport` (`part_003` lines 9-35) as a function of
the external call's outcome. -/
def analyzeReport (_report : DailyReport) (api : GenAiResult) : String :=
  match api with
  | .apiError _ => "Unable to generate analysis at this time."
  | .ok t =>
    match t with
    | some s => if s = "" then "No analysis generated." else s
    | none => "No analysis generated."

/-- `GeminiService.identifyRiskTrends` (`part_003` lines 37-66): an early
static return on an empty report list, else the call outcome with its own
fallbacks. -/
def identifyRiskTrends (reports : List DailyReport) (api : GenAiResult) : String :=
  if reports.length = 0 then "Not enough data for trend analysis."
  else
    match api with
    | .apiError _ => "Error analyzing trends."
    | .ok t =>
      match t with
      | some s => if s = "" then "No trends identified." else s
      | none => "No trends identified."

/-- `GeminiService.chatWithProjectData` (`part_003` lines 68-118). -/
def chatWithProjectData (_message : String) (_reports : List DailyReport)
    (_history : List ChatTurn) (api : GenAiResult) : String :=
  match api with
  | .apiError _ => "Sorry, I encountered an error connecting to the AI service."
  | .ok t =>
    match t with
    | some s => if s = "" then "I couldn't generate a response." else s
    | none => "I couldn't generate a response."

/-! ## Concrete fixtures for witnesses and counterexamples -/

/-- An all-empty resource row, base for concrete inputs. -/
def blankBaseEntry : BaseEntry :=
  { id := "", code := "", name := "", quantity := 0, unit := "", cost := none,
    overtime := none, comments := none, company := none, trade := none }

/-- An all-empty activity, base for concrete inputs. -/
def blankActivity : ActivityEntry :=
  { id := "", activityId := "", order := 0, description := "",
    responsiblePerson := "", workCategory := "", detailedDescription := "",
    plannedCompletion := none, plannedQuantity := none, actualQuantity := none,
    quantityUnit := none, referenceCode := "", workArea := "", stationGrid := "",
    plannedStart := none, plannedFinish := none, actualStart := none,
    actualFinish := none, isMilestone := false, manpower := [], material := [],
    equipment := [], subcontractor := [], risks := [] }

/-- An all-empty report, base for concrete inputs. -/
def blankReport : DailyReport :=
  { id := "", date := "", userId := "", createdAt := 0, updatedAt := 0,
    activities := [] }

/-- A report whose date is the zero-padded index (lexicographic order of
these dates coincides with numeric order). -/
def seqReport (i : ℕ) : DailyReport := { blankReport with date := padStart5 (toString i) }

/-! ## Helper lemmas -/

theorem jsRound_intCast (n : ℤ) : jsRound (n : ℚ) = n := by
  unfold jsRound
  rw [add_comm, Int.floor_add_int]
  norm_num

theorem jsRound_nonneg (q : ℚ) (h : 0 ≤ q) : 0 ≤ jsRound q := by
  unfold jsRound
  calc (0 : ℤ) = Int.floor ((0 : ℚ) + 1/2) := by norm_num
    _ ≤ Int.floor (q + 1/2) := by
        apply Int.floor_le_floor
        linarith

theorem assocGet_singleton (k key : String) (v : ResourceMemoryItem) :
    assocGet [(k, v)] key = if (k == key) = true then some v else none := by
  by_cases h : (k == key) = true
  · simp [assocGet, h]
  · simp [assocGet, h]

theorem inclusiveDays_day_aligned (ds df : ℤ) :
    inclusiveDays (some (86400000 * ds)) (some (86400000 * df)) = some (df - ds + 1) := by
  unfold inclusiveDays dayDiff
  have h : ((86400000 * df - 86400000 * ds : ℤ) : ℚ) / msPerDay = ((df - ds : ℤ) : ℚ) := by
    unfold msPerDay
    push_cast
    field_simp
    ring
  simp only [h, jsRound_intCast]

/-! ## C3: duration arithmetic -/

/-- C3 counterexample: the claim asserts that an inverted range yields a
negative value, but a range inverted by exactly one day
(start = day 1, finish = day 0) yields 0, which is not negative. -/
theorem inclusiveDays_inverted_by_one_day_is_zero :
    inclusiveDays (some 86400000) (some 0) = some 0 := by
  have h := inclusiveDays_day_aligned 1 0
  norm_num at h
  exact h

/-- C3 (amended): `inclusiveDays` is the rounded calendar-day difference
plus one; `inclusiveDays(d, d) = 1` for every valid date `d`; it is
order-sensitive; an inverted range yields a NON-POSITIVE value — strictly
negative when the finish precedes the start by two or more days, zero when
by exactly one day — rather than an error or exception; and a missing or
unparsable date yields `none`, never a fallback value. -/
theorem inclusiveDays_spec :
    (∀ s f : ℤ, inclusiveDays (some s) (some f) =
        some (jsRound (((f - s : ℤ) : ℚ) / msPerDay) + 1))
    ∧ (∀ t : ℤ, inclusiveDays (some t) (some t) = some 1)
    ∧ inclusiveDays (some (86400000 * 0)) (some (86400000 * 1)) ≠
        inclusiveDays (some (86400000 * 1)) (some (86400000 * 0))
    ∧ (∀ ds df : ℤ, df < ds →
        inclusiveDays (some (86400000 * ds)) (some (86400000 * df)) = some (df - ds + 1)
        ∧ df - ds + 1 ≤ 0
        ∧ (df + 1 < ds → df - ds + 1 < 0))
    ∧ (∀ x, inclusiveDays none x = none)
    ∧ (∀ x, inclusiveDays x none = none) := by
  refine ⟨?_, ?_, ?_, ?_, ?_, ?_⟩
  · intro s f
    rfl
  · intro t
    have h : ((t - t : ℤ) : ℚ) / msPerDay = ((0 : ℤ) : ℚ) := by
      push_cast
      simp
    unfold inclusiveDays dayDiff
    simp only [h, jsRound_intCast]
    norm_num
  · rw [inclusiveDays_day_aligned, inclusiveDays_day_aligned]
    simp
  · intro ds df hlt
    refine ⟨inclusiveDays_day_aligned ds df, by omega, by omega⟩
  · intro x
    cases x <;> rfl
  · intro x
    cases x <;> rfl

/-- C3 witness: the amended theorem applied at start = day 5,
finish = day 3 (inverted by two days). -/
theorem inclusiveDays_spec_witness :
    inclusiveDays (some (86400000 * 5)) (some (86400000 * 3)) = some (3 - 5 + 1)
    ∧ ((3 : ℤ) - 5 + 1 ≤ 0) ∧ ((3 : ℤ) - 5 + 1 < 0) := by
  have h := inclusiveDays_spec.2.2.2.1 5 3 (by norm_num)
  exact ⟨h.1, h.2.1, h.2.2 (by norm_num)⟩

theorem list_foldl_add_map {α : Type} (f : α → ℚ) (init : ℚ) (l : List α) :
    l.foldl (fun s x => s + f x) init = init + (l.map f).sum := by
  induction l generalizing init with
  | nil => simp
  | cons a t ih =>
    simp only [List.foldl_cons, List.map_cons, List.sum_cons, ih]
    ring

/-! ## C2: PERT cost model -/

/-- C2: the cost model sums quantity × unit cost per category (overtime
added to quantity for manpower only), scales by the planned duration to
`mostLikely`, applies the fixed 0.90 / 1.21 multipliers, and derives
`stdDev` and the PERT `expected`; in particular a daily total of 1000 over
5 planned days yields 5000 / 4500 / 6050 and stdDev (6050 − 4500)/6. -/
theorem buildCostModel_spec (a : ActivityEntry) :
    ((buildCostModelForActivity a).daily.manpower =
        (a.manpower.map (fun m => (m.quantity + num m.overtime) * num m.cost)).sum)
    ∧ ((buildCostModelForActivity a).daily.material =
        (a.material.map (fun m => m.quantity * num m.cost)).sum)
    ∧ ((buildCostModelForActivity a).daily.equipment =
        (a.equipment.map (fun e => e.quantity * num e.cost)).sum)
    ∧ ((buildCostModelForActivity a).daily.subcontractor =
        (a.subcontractor.map (fun s => s.quantity * num s.cost)).sum)
    ∧ ((buildCostModelForActivity a).daily.total =
        (buildCostModelForActivity a).daily.manpower
        + (buildCostModelForActivity a).daily.equipment
        + (buildCostModelForActivity a).daily.material
        + (buildCostModelForActivity a).daily.subcontractor)
    ∧ ((buildCostModelForActivity a).plannedDays =
        safeDays a.plannedStart a.plannedFinish)
    ∧ ((buildCostModelForActivity a).total.mostLikely =
        (buildCostModelForActivity a).daily.total
        * (((buildCostModelForActivity a).plannedDays : ℤ) : ℚ))
    ∧ ((buildCostModelForActivity a).total.optimistic =
        (buildCostModelForActivity a).total.mostLikely * (90/100))
    ∧ ((buildCostModelForActivity a).total.pessimistic =
        (buildCostModelForActivity a).total.mostLikely * (121/100))
    ∧ ((buildCostModelForActivity a).total.stdDev =
        ((buildCostModelForActivity a).total.pessimistic
         - (buildCostModelForActivity a).total.optimistic) / 6)
    ∧ ((buildCostModelForActivity a).total.expected =
        ((buildCostModelForActivity a).total.optimistic
         + 4 * (buildCostModelForActivity a).total.mostLikely
         + (buildCostModelForActivity a).total.pessimistic) / 6)
    ∧ ((buildCostModelForActivity a).daily.total = 1000 →
        (buildCostModelForActivity a).plannedDays = 5 →
        (buildCostModelForActivity a).total.mostLikely = 5000
        ∧ (buildCostModelForActivity a).total.optimistic = 4500
        ∧ (buildCostModelForActivity a).total.pessimistic = 6050
        ∧ (buildCostModelForActivity a).total.stdDev = (6050 - 4500) / 6) := by
  have hml : (buildCostModelForActivity a).total.mostLikely =
      (buildCostModelForActivity a).daily.total
      * (((buildCostModelForActivity a).plannedDays : ℤ) : ℚ) := by
    simp [buildCostModelForActivity]
  have hopt : (buildCostModelForActivity a).total.optimistic =
      (buildCostModelForActivity a).total.mostLikely * (90/100) := by
    simp [buildCostModelForActivity]
  have hpes : (buildCostModelForActivity a).total.pessimistic =
      (buildCostModelForActivity a).total.mostLikely * (121/100) := by
    simp [buildCostModelForActivity]
  have hstd : (buildCostModelForActivity a).total.stdDev =
      ((buildCostModelForActivity a).total.pessimistic
       - (buildCostModelForActivity a).total.optimistic) / 6 := by
    simp [buildCostModelForActivity]
  have hexp : (buildCostModelForActivity a).total.expected =
      ((buildCostModelForActivity a).total.optimistic
       + 4 * (buildCostModelForActivity a).total.mostLikely
       + (buildCostModelForActivity a).total.pessimistic) / 6 := by
    simp [buildCostModelForActivity]
  refine ⟨?_, ?_, ?_, ?_, ?_, ?_, hml, hopt, hpes, hstd, hexp, ?_⟩
  · simp [buildCostModelForActivity, list_foldl_add_map]
  · simp [buildCostModelForActivity, list_foldl_add_map]
  · simp [buildCostModelForActivity, list_foldl_add_map]
  · simp [buildCostModelForActivity, list_foldl_add_map]
  · simp [buildCostModelForActivity]
  · simp [buildCostModelForActivity]
  · intro h1 h2
    have e1 : (buildCostModelForActivity a).total.mostLikely = 5000 := by
      rw [hml, h1, h2]
      norm_num
    refine ⟨e1, ?_, ?_, ?_⟩
    · rw [hopt, e1]
      norm_num
    · rw [hpes, e1]
      norm_num
    · rw [hstd, hpes, hopt, e1]
      norm_num

/-- C2 witness: one material row of quantity 10 at unit cost 100 over a
planned span of 5 inclusive days. -/
theorem buildCostModel_spec_witness :
    (buildCostModelForActivity
      { blankActivity with
        material := [{ blankBaseEntry with quantity := 10, cost := some 100 }],
        plannedStart := some 0, plannedFinish := some 345600000 }).daily.total = 1000
    ∧ (buildCostModelForActivity
      { blankActivity with
        material := [{ blankBaseEntry with quantity := 10, cost := some 100 }],
        plannedStart := some 0, plannedFinish := some 345600000 }).plannedDays = 5
    ∧ (buildCostModelForActivity
      { blankActivity with
        material := [{ blankBaseEntry with quantity := 10, cost := some 100 }],
        plannedStart := some 0, plannedFinish := some 345600000 }).total.mostLikely = 5000
    ∧ (buildCostModelForActivity
      { blankActivity with
        material := [{ blankBaseEntry with quantity := 10, cost := some 100 }],
        plannedStart := some 0, plannedFinish := some 345600000 }).total.optimistic = 4500
    ∧ (buildCostModelForActivity
      { blankActivity with
        material := [{ blankBaseEntry with quantity := 10, cost := some 100 }],
        plannedStart := some 0, plannedFinish := some 345600000 }).total.pessimistic = 6050
    ∧ (buildCostModelForActivity
      { blankActivity with
        material := [{ blankBaseEntry with quantity := 10, cost := some 100 }],
        plannedStart := some 0, plannedFinish := some 345600000 }).total.stdDev
      = (6050 - 4500) / 6 := by
  have h1 : (buildCostModelForActivity
      { blankActivity with
        material := [{ blankBaseEntry with quantity := 10, cost := some 100 }],
        plannedStart := some 0, plannedFinish := some 345600000 }).daily.total = 1000 := by
    simp [buildCostModelForActivity, blankActivity, blankBaseEntry, num]
    norm_num
  have h2 : (buildCostModelForActivity
      { blankActivity with
        material := [{ blankBaseEntry with quantity := 10, cost := some 100 }],
        plannedStart := some 0, plannedFinish := some 345600000 }).plannedDays = 5 := by
    simp [buildCostModelForActivity, blankActivity, safeDays, inclusiveDays, dayDiff]
    norm_num [jsRound, msPerDay]
  have h := (buildCostModel_spec _).2.2.2.2.2.2.2.2.2.2.2 h1 h2
  exact ⟨h1, h2, h.1, h.2.1, h.2.2.1, h.2.2.2⟩

/-! ## C4: reindexing -/

theorem reindexFrom_getElem (k i : ℕ) (acts : List ActivityEntry) :
    (reindexFrom k acts)[i]? = acts[i]?.map
      (fun a => { a with order := k + i + 1, activityId := formatActId (k + i + 1) }) := by
  induction acts generalizing k i with
  | nil => simp [reindexFrom]
  | cons a t ih =>
    cases i with
    | zero => simp [reindexFrom]
    | succ j =>
      simp only [reindexFrom, List.getElem?_cons_succ]
      rw [ih (k + 1) j]
      have e : k + 1 + j + 1 = k + (j + 1) + 1 := by omega
      simp only [e]

/-- C4: `reindexActivities` assigns `order = i + 1` and
`activityId = formatActId(i + 1)` to the entry at index i, in list order,
keeping all other fields; any 3-item list comes out with activityIds
ACT-00001, ACT-00002, ACT-00003 regardless of prior ids. -/
theorem reindexActivities_spec :
    (∀ (acts : List ActivityEntry) (i : ℕ),
      (reindexActivities acts)[i]? = acts[i]?.map
        (fun a => { a with order := i + 1, activityId := formatActId (i + 1) }))
    ∧ (∀ a b c : ActivityEntry,
      (reindexActivities [a, b, c]).map (fun x => x.activityId) =
        ["ACT-00001", "ACT-00002", "ACT-00003"]) := by
  constructor
  · intro acts i
    have h := reindexFrom_getElem 0 i acts
    simpa using h
  · intro a b c
    show [formatActId 1, formatActId 2, formatActId 3] = _
    have h1 : formatActId 1 = "ACT-00001" := by decide
    have h2 : formatActId 2 = "ACT-00002" := by decide
    have h3 : formatActId 3 = "ACT-00003" := by decide
    rw [h1, h2, h3]

/-! ## C9: generative-AI fallbacks -/

/-- C9: on any failure of the external API call, each GeminiService
operation still produces a string — the fixed static fallback of that
operation — instead of propagating the error (in the embedding the
operations are total functions into `String`). -/
theorem geminiService_fallback_spec :
    (∀ (report : DailyReport) (e : String),
      analyzeReport report (.apiError e) = "Unable to generate analysis at this time.")
    ∧ (∀ (reports : List DailyReport) (e : String),
      identifyRiskTrends reports (.apiError e) =
        if reports.length = 0 then "Not enough data for trend analysis."
        else "Error analyzing trends.")
    ∧ (∀ (message : String) (reports : List DailyReport)
        (history : List ChatTurn) (e : String),
      chatWithProjectData message reports history (.apiError e) =
        "Sorry, I encountered an error connecting to the AI service.") := by
  refine ⟨fun _ _ => rfl, ?_, fun _ _ _ _ => rfl⟩
  intro reports e
  by_cases h : reports.length = 0 <;> simp [identifyRiskTrends, h]

/-! ## C10: save/lookup key asymmetry -/

/-- C10: saving writes a resource row into memory keyed by the code
exactly as typed while the blur lookup reads under the uppercased code,
so the save-then-lookup round-trip on a freshly saved row succeeds iff
the code equals its own uppercasing, and on success retrieves exactly the
saved template. -/
theorem saveThenLookup_roundTrip (m : BaseEntry) (h : m.code ≠ "") :
    ((memLookup (handleSaveMemory emptyResourceMemory
        [{ blankActivity with manpower := [m] }]) .manpower (jsToUpper m.code)).isSome
      ↔ jsToUpper m.code = m.code)
    ∧ (jsToUpper m.code = m.code →
      memLookup (handleSaveMemory emptyResourceMemory
        [{ blankActivity with manpower := [m] }]) .manpower (jsToUpper m.code)
        = some (savedManpowerItem m)) := by
  have hmem : handleSaveMemory emptyResourceMemory
      [{ blankActivity with manpower := [m] }]
      = { emptyResourceMemory with manpower := [(m.code, savedManpowerItem m)] } := by
    simp [handleSaveMemory, saveActivityToMemory, blankActivity, memSet,
      emptyResourceMemory, assocSet, h]
  rw [hmem]
  constructor
  · by_cases hc : m.code = jsToUpper m.code
    · have hb : (m.code == jsToUpper m.code) = true := beq_iff_eq.mpr hc
      simp only [memLookup, memField, assocGet_singleton, hb, if_true]
      simp only [Option.isSome_some, true_iff]
      exact hc.symm
    · have hb : ¬ ((m.code == jsToUpper m.code) = true) := by
        simpa using hc
      simp only [memLookup, memField, assocGet_singleton, if_neg hb]
      simp only [Option.isSome_none, Bool.false_eq_true, false_iff]
      intro heq
      exact hc (Eq.symm heq)
  · intro heq
    have hb : (m.code == jsToUpper m.code) = true := by
      simp [heq]
    simp only [memLookup, memField, assocGet_singleton, hb, if_true]

/-- C10 witness: a row saved with the lowercase code `man-01` is not found
by the uppercased lookup. -/
theorem saveThenLookup_roundTrip_witness :
    ¬ ((memLookup (handleSaveMemory emptyResourceMemory
        [{ blankActivity with manpower := [{ blankBaseEntry with code := "man-01" }] }])
        .manpower (jsToUpper "man-01")).isSome = true) := by
  have h := (saveThenLookup_roundTrip { blankBaseEntry with code := "man-01" }
    (by decide)).1
  intro hs
  have := h.mp hs
  revert this
  decide

/-! ## C1: code-blur smart-memory fill-in -/

/-- C1 counterexample: a row whose unit is already `"kg"` does NOT keep it
after a code-blur lookup hits a template whose unit is `"Hrs"` — the
template value overwrites the non-empty field. -/
theorem resourceCodeBlur_overwrites_nonempty_unit :
    (resourceCodeBlurItem
      { emptyResourceMemory with manpower := [("MAN-01", { unit := some "Hrs" })] }
      .manpower "MAN-01"
      { blankBaseEntry with code := "MAN-01", unit := "kg" }).unit = "Hrs"
    ∧ ¬ ((resourceCodeBlurItem
      { emptyResourceMemory with manpower := [("MAN-01", { unit := some "Hrs" })] }
      .manpower "MAN-01"
      { blankBaseEntry with code := "MAN-01", unit := "kg" }).unit = "kg") := by
  constructor
  · decide
  · decide

/-- C1 (amended): when a code-blur lookup finds a remembered template, the
row is rewritten field by field with the TEMPLATE winning whenever its
value is non-empty (for `cost`, whenever it is defined at all) — also
overwriting non-empty row fields — and the row's value is kept only when
the template's value is empty or undefined; the row's code is uppercased
and its other fields are untouched. -/
theorem resourceCodeBlur_fill_spec (memory : ResourceMemory) (cat : MemCategory)
    (code : String) (i : BaseEntry) (t : ResourceMemoryItem)
    (hcode : code ≠ "")
    (hfound : memLookup memory cat (jsToUpper code) = some t) :
    (resourceCodeBlurItem memory cat code i).code = jsToUpper code
    ∧ ((t.name = none ∨ t.name = some "") →
        (resourceCodeBlurItem memory cat code i).name = i.name)
    ∧ (∀ s, t.name = some s → s ≠ "" →
        (resourceCodeBlurItem memory cat code i).name = s)
    ∧ ((t.unit = none ∨ t.unit = some "") →
        (resourceCodeBlurItem memory cat code i).unit = i.unit)
    ∧ (∀ s, t.unit = some s → s ≠ "" →
        (resourceCodeBlurItem memory cat code i).unit = s)
    ∧ (t.cost = none → (resourceCodeBlurItem memory cat code i).cost = i.cost)
    ∧ (∀ q, t.cost = some q → (resourceCodeBlurItem memory cat code i).cost = some q)
    ∧ ((t.trade = none ∨ t.trade = some "") →
        (resourceCodeBlurItem memory cat code i).trade = i.trade)
    ∧ (∀ s, t.trade = some s → s ≠ "" →
        (resourceCodeBlurItem memory cat code i).trade = some s)
    ∧ ((t.company = none ∨ t.company = some "") →
        (resourceCodeBlurItem memory cat code i).company = i.company)
    ∧ (∀ s, t.company = some s → s ≠ "" →
        (resourceCodeBlurItem memory cat code i).company = some s)
    ∧ ((t.quantity = none ∨ t.quantity = some 0) →
        (resourceCodeBlurItem memory cat code i).quantity = i.quantity)
    ∧ (∀ q, t.quantity = some q → q ≠ 0 →
        (resourceCodeBlurItem memory cat code i).quantity = q)
    ∧ ((t.comments = none ∨ t.comments = some "") →
        (resourceCodeBlurItem memory cat code i).comments = i.comments)
    ∧ (∀ s, t.comments = some s → s ≠ "" →
        (resourceCodeBlurItem memory cat code i).comments = some s)
    ∧ (resourceCodeBlurItem memory cat code i).id = i.id := by
  have hr : resourceCodeBlurItem memory cat code i
      = applyMemoryToItem t (jsToUpper code) i := by
    simp [resourceCodeBlurItem, hcode, hfound]
  rw [hr]
  refine ⟨rfl, ?_, ?_, ?_, ?_, ?_, ?_, ?_, ?_, ?_, ?_, ?_, ?_, ?_, ?_, rfl⟩
  · rintro (hn | hn) <;> simp [applyMemoryToItem, jsOrStr, hn]
  · intro s hs hne
    simp [applyMemoryToItem, jsOrStr, hs, hne]
  · rintro (hn | hn) <;> simp [applyMemoryToItem, jsOrStr, hn]
  · intro s hs hne
    simp [applyMemoryToItem, jsOrStr, hs, hne]
  · intro hn
    simp [applyMemoryToItem, hn]
  · intro q hq
    simp [applyMemoryToItem, hq]
  · rintro (hn | hn) <;> simp [applyMemoryToItem, jsOrOpt, hn]
  · intro s hs hne
    simp [applyMemoryToItem, jsOrOpt, hs, hne]
  · rintro (hn | hn) <;> simp [applyMemoryToItem, jsOrOpt, hn]
  · intro s hs hne
    simp [applyMemoryToItem, jsOrOpt, hs, hne]
  · rintro (hn | hn) <;> simp [applyMemoryToItem, jsOrNum, hn]
  · intro q hq hne
    simp [applyMemoryToItem, jsOrNum, hq, hne]
  · rintro (hn | hn) <;> simp [applyMemoryToItem, jsOrOpt, hn]
  · intro s hs hne
    simp [applyMemoryToItem, jsOrOpt, hs, hne]

/-- C1 witness: the amended theorem applied to a template with name
`Welder` and unit `Hrs` hitting a row with an empty name and unit `kg`:
the empty name is filled and the non-empty unit is overwritten. -/
theorem resourceCodeBlur_fill_spec_witness :
    (resourceCodeBlurItem
      { emptyResourceMemory with
        manpower := [("MAN-01", { name := some "Welder", unit := some "Hrs" })] }
      .manpower "MAN-01"
      { blankBaseEntry with code := "MAN-01", unit := "kg" }).name = "Welder"
    ∧ (resourceCodeBlurItem
      { emptyResourceMemory with
        manpower := [("MAN-01", { name := some "Welder", unit := some "Hrs" })] }
      .manpower "MAN-01"
      { blankBaseEntry with code := "MAN-01", unit := "kg" }).unit = "Hrs" := by
  have h := resourceCodeBlur_fill_spec
    { emptyResourceMemory with
      manpower := [("MAN-01", { name := some "Welder", unit := some "Hrs" })] }
    .manpower "MAN-01"
    { blankBaseEntry with code := "MAN-01", unit := "kg" }
    { name := some "Welder", unit := some "Hrs" }
    (by decide) (by decide)
  exact ⟨h.2.2.1 "Welder" rfl (by decide), h.2.2.2.2.1 "Hrs" rfl (by decide)⟩

/-! ## C6: planned percent complete and shortfall -/

/-- C6: planned-percent-complete as of a reference date is 100 at or past
the planned finish, 0 at or before the planned start, and otherwise the
clamped linear interpolation elapsed/total × 100 of inclusive days; for an
activity with plannedQuantity 100, actualQuantity 40, a 10-day planned
span and the reference on day 5, the planned percent is 50 and the
shortfall is 50 − 40 = 10. -/
theorem plannedPctAsOn_spec :
    (∀ (a : ActivityEntry) (ps pf ao : ℤ), a.plannedStart = some ps →
      a.plannedFinish = some pf → pf ≤ ao →
      plannedPctAsOn a (some ao) = some 100)
    ∧ (∀ (a : ActivityEntry) (ps pf ao : ℤ), a.plannedStart = some ps →
      a.plannedFinish = some pf → ¬ pf ≤ ao → ao ≤ ps →
      plannedPctAsOn a (some ao) = some 0)
    ∧ (∀ (a : ActivityEntry) (ps pf ao : ℤ), a.plannedStart = some ps →
      a.plannedFinish = some pf → ps < ao → ao < pf →
      plannedPctAsOn a (some ao) =
        some (clamp
          (((jsRound (((ao - ps : ℤ) : ℚ) / msPerDay) + 1 : ℤ) : ℚ)
            / ((jsRound (((pf - ps : ℤ) : ℚ) / msPerDay) + 1 : ℤ) : ℚ) * 100) 0 100))
    ∧ (plannedPctAsOn
        { blankActivity with
          plannedQuantity := some 100, actualQuantity := some 40,
          plannedStart := some 0, plannedFinish := some 777600000 }
        (some 345600000) = some 50
      ∧ shortfall
        { blankActivity with
          plannedQuantity := some 100, actualQuantity := some 40,
          plannedStart := some 0, plannedFinish := some 777600000 }
        (some 345600000) = some 10) := by
  have case100 : ∀ (a : ActivityEntry) (ps pf ao : ℤ), a.plannedStart = some ps →
      a.plannedFinish = some pf → pf ≤ ao → plannedPctAsOn a (some ao) = some 100 := by
    intro a ps pf ao hps hpf hle
    simp only [plannedPctAsOn, hps, hpf]
    rw [if_pos hle]
  have case0 : ∀ (a : ActivityEntry) (ps pf ao : ℤ), a.plannedStart = some ps →
      a.plannedFinish = some pf → ¬ pf ≤ ao → ao ≤ ps →
      plannedPctAsOn a (some ao) = some 0 := by
    intro a ps pf ao hps hpf hnle hle
    simp only [plannedPctAsOn, hps, hpf]
    rw [if_neg hnle, if_pos hle]
  have caseMid : ∀ (a : ActivityEntry) (ps pf ao : ℤ), a.plannedStart = some ps →
      a.plannedFinish = some pf → ps < ao → ao < pf →
      plannedPctAsOn a (some ao) =
        some (clamp
          (((jsRound (((ao - ps : ℤ) : ℚ) / msPerDay) + 1 : ℤ) : ℚ)
            / ((jsRound (((pf - ps : ℤ) : ℚ) / msPerDay) + 1 : ℤ) : ℚ) * 100) 0 100) := by
    intro a ps pf ao hps hpf h1 h2
    have htotnn : (0 : ℤ) ≤ jsRound (((pf - ps : ℤ) : ℚ) / msPerDay) := by
      apply jsRound_nonneg
      apply div_nonneg
      · have : (0 : ℤ) ≤ pf - ps := by omega
        exact_mod_cast this
      · norm_num [msPerDay]
    have helnn : (0 : ℤ) ≤ jsRound (((ao - ps : ℤ) : ℚ) / msPerDay) := by
      apply jsRound_nonneg
      apply div_nonneg
      · have : (0 : ℤ) ≤ ao - ps := by omega
        exact_mod_cast this
      · norm_num [msPerDay]
    have htot : (jsRound (((pf - ps : ℤ) : ℚ) / msPerDay) + 1) ≠ 0 := by omega
    have hel : (jsRound (((ao - ps : ℤ) : ℚ) / msPerDay) + 1) ≠ 0 := by omega
    simp only [plannedPctAsOn, hps, hpf]
    rw [if_neg (not_le.mpr h2), if_neg (not_le.mpr h1)]
    simp only [inclusiveDays, dayDiff]
    rw [if_pos ⟨htot, hel⟩]
  refine ⟨case100, case0, caseMid, ?_, ?_⟩
  · have h := caseMid
      { blankActivity with
        plannedQuantity := some 100, actualQuantity := some 40,
        plannedStart := some 0, plannedFinish := some 777600000 }
      0 777600000 345600000 rfl rfl (by norm_num) (by norm_num)
    rw [h]
    have he : jsRound (((345600000 - 0 : ℤ) : ℚ) / msPerDay) = 4 := by
      norm_num [jsRound, msPerDay]
    have ht : jsRound (((777600000 - 0 : ℤ) : ℚ) / msPerDay) = 9 := by
      norm_num [jsRound, msPerDay]
    rw [he, ht]
    norm_num [clamp]
  · have h := caseMid
      { blankActivity with
        plannedQuantity := some 100, actualQuantity := some 40,
        plannedStart := some 0, plannedFinish := some 777600000 }
      0 777600000 345600000 rfl rfl (by norm_num) (by norm_num)
    have he : jsRound (((345600000 - 0 : ℤ) : ℚ) / msPerDay) = 4 := by
      norm_num [jsRound, msPerDay]
    have ht : jsRound (((777600000 - 0 : ℤ) : ℚ) / msPerDay) = 9 := by
      norm_num [jsRound, msPerDay]
    rw [he, ht] at h
    have hpct : plannedPctAsOn
        { blankActivity with
          plannedQuantity := some 100, actualQuantity := some 40,
          plannedStart := some 0, plannedFinish := some 777600000 }
        (some 345600000) = some 50 := by
      rw [h]
      norm_num [clamp]
    simp only [shortfall, plannedQtyExpected, hpct]
    norm_num [plannedQtyNum, actualQtyNum, blankActivity]

/-- C6 witness: the 100% clause applied with the reference date equal to
the planned finish of a 10-day span. -/
theorem plannedPctAsOn_spec_witness :
    plannedPctAsOn
      { blankActivity with plannedStart := some 0, plannedFinish := some 777600000 }
      (some 777600000) = some 100 := by
  exact plannedPctAsOn_spec.1
    { blankActivity with plannedStart := some 0, plannedFinish := some 777600000 }
    0 777600000 777600000 rfl rfl (by norm_num)

/-! ## C8: report reads feeding the views -/

theorem mem_insertByDateDesc (a r : DailyReport) (l : List DailyReport) :
    a ∈ insertByDateDesc r l ↔ a = r ∨ a ∈ l := by
  induction l with
  | nil => simp [insertByDateDesc]
  | cons x xs ih =>
    simp only [insertByDateDesc]
    by_cases h : strLe r.date x.date
    · rw [if_pos h]
      simp only [List.mem_cons, ih]
      tauto
    · rw [if_neg h]
      simp only [List.mem_cons]

theorem mem_sortByDateDesc (a : DailyReport) (l : List DailyReport) :
    a ∈ sortByDateDesc l ↔ a ∈ l := by
  induction l with
  | nil => simp [sortByDateDesc]
  | cons x xs ih =>
    simp only [sortByDateDesc, List.foldr_cons] at ih ⊢
    rw [mem_insertByDateDesc]
    simp only [List.mem_cons, ih]

theorem length_insertByDateDesc (r : DailyReport) (l : List DailyReport) :
    (insertByDateDesc r l).length = l.length + 1 := by
  induction l with
  | nil => simp [insertByDateDesc]
  | cons x xs ih =>
    simp only [insertByDateDesc]
    by_cases h : strLe r.date x.date
    · rw [if_pos h]
      simp [ih]
    · rw [if_neg h]
      simp

theorem length_sortByDateDesc (l : List DailyReport) :
    (sortByDateDesc l).length = l.length := by
  induction l with
  | nil => rfl
  | cons x xs ih =>
    simp only [sortByDateDesc, List.foldr_cons] at ih ⊢
    rw [length_insertByDateDesc, ih, List.length_cons]

/-- C8 counterexample: with 51 stored reports (distinct dates), the read
operation omits the oldest one — the views do not receive every one of
the user's reports. -/
theorem getReports_omits_oldest_of_51 :
    seqReport 0 ∈ (List.range 51).map seqReport
    ∧ seqReport 0 ∉ getReports ((List.range 51).map seqReport) := by
  constructor
  · exact List.mem_map_of_mem seqReport (by decide)
  · decide

/-- C8 (amended): the read operation returns reports drawn only from the
stored collection (the 50 most recent by date), and it contains every
stored report only when the user has at most 50 — the full collection is
received by the views exactly in that case. -/
theorem getReports_spec :
    (∀ (stored : List DailyReport) (r : DailyReport),
      r ∈ getReports stored → r ∈ stored)
    ∧ (∀ stored : List DailyReport, stored.length ≤ 50 →
      ∀ r ∈ stored, r ∈ getReports stored) := by
  constructor
  · intro stored r hr
    have h1 : r ∈ sortByDateDesc stored := List.mem_of_mem_take hr
    exact (mem_sortByDateDesc r stored).mp h1
  · intro stored hlen r hr
    have h1 : (sortByDateDesc stored).length ≤ 50 := by
      rw [length_sortByDateDesc]
      exact hlen
    unfold getReports
    rw [List.take_of_length_le h1]
    exact (mem_sortByDateDesc r stored).mpr hr

/-- C8 witness: with a single stored report the read returns it. -/
theorem getReports_spec_witness :
    seqReport 3 ∈ getReports [seqReport 3] := by
  exact getReports_spec.2 [seqReport 3] (by simp) (seqReport 3) (by simp)

/-! ## C5: ripple shift of activity ids -/

theorem takeWhile_all {p : Char → Bool} (l : List Char)
    (h : ∀ ch ∈ l, p ch = true) : l.takeWhile p = l := by
  induction l with
  | nil => rfl
  | cons a t ih =>
    rw [List.takeWhile_cons, if_pos (h a (by simp))]
    rw [ih (fun ch hc => h ch (by simp [hc]))]

theorem takeWhile_append_stop {p : Char → Bool} (l1 l2 : List Char)
    (h1 : ∀ ch ∈ l1, p ch = true)
    (h2 : ∀ ch, l2.head? = some ch → p ch = false) :
    (l1 ++ l2).takeWhile p = l1 := by
  induction l1 with
  | nil =>
    cases l2 with
    | nil => rfl
    | cons b bs =>
      simp only [List.nil_append, List.takeWhile_cons, h2 b rfl]
      simp
  | cons a t ih =>
    simp only [List.cons_append, List.takeWhile_cons, h1 a (by simp)]
    simp only [if_true]
    rw [ih (fun ch hc => h1 ch (by simp [hc]))]

theorem data_ne_nil_of_ne_empty (s : String) (h : s ≠ "") : s.data ≠ [] := by
  intro hd
  apply h
  cases s
  simp_all

theorem takeWhile_nonDigit_append (p d : String)
    (hp : ∀ ch ∈ p.data, ch.isDigit = false)
    (hd : d ≠ "") (hdd : ∀ ch ∈ d.data, ch.isDigit = true) :
    (p.data ++ d.data).takeWhile (fun ch => !ch.isDigit) = p.data := by
  apply takeWhile_append_stop
  · intro ch hc
    simp [hp ch hc]
  · intro ch hc
    obtain ⟨b, bs, hh⟩ := List.exists_cons_of_ne_nil (data_ne_nil_of_ne_empty d hd)
    rw [hh] at hc
    have hb : b = ch := by
      simpa using hc
    have hmem : ch ∈ d.data := by
      rw [hh, ← hb]
      simp
    simp [hdd ch hmem]

theorem firstDigitSplit_append (p d : String)
    (hp : ∀ ch ∈ p.data, ch.isDigit = false)
    (hd : d ≠ "") (hdd : ∀ ch ∈ d.data, ch.isDigit = true) :
    firstDigitSplit (p ++ d) = some (p, d) := by
  have hdata : (p ++ d).data = p.data ++ d.data := by simp
  have hdn : d.data ≠ [] := data_ne_nil_of_ne_empty d hd
  have hpre := takeWhile_nonDigit_append p d hp hd hdd
  have hdig : d.data.takeWhile Char.isDigit = d.data :=
    takeWhile_all d.data hdd
  obtain ⟨b, bs, hh⟩ := List.exists_cons_of_ne_nil hdn
  unfold firstDigitSplit
  simp only [hdata]
  simp only [hpre]
  simp only [List.drop_left]
  simp only [hh]
  show some (String.mk p.data, String.mk ((b :: bs).takeWhile Char.isDigit)) = some (p, d)
  rw [← hh, hdig]

theorem getNum_append (p d : String)
    (hp : ∀ ch ∈ p.data, ch.isDigit = false)
    (hd : d ≠ "") (hdd : ∀ ch ∈ d.data, ch.isDigit = true) :
    getNum (p ++ d) = digitsVal d := by
  unfold getNum
  rw [firstDigitSplit_append p d hp hd hdd]

theorem leadingNonDigitsOr_append (p d fb : String) (hpne : p ≠ "")
    (hp : ∀ ch ∈ p.data, ch.isDigit = false)
    (hd : d ≠ "") (hdd : ∀ ch ∈ d.data, ch.isDigit = true) :
    leadingNonDigitsOr (p ++ d) fb = p := by
  have hdata : (p ++ d).data = p.data ++ d.data := by simp
  have hpre := takeWhile_nonDigit_append p d hp hd hdd
  obtain ⟨b, bs, hh⟩ := List.exists_cons_of_ne_nil (data_ne_nil_of_ne_empty p hpne)
  unfold leadingNonDigitsOr
  simp only [hdata]
  simp only [hpre]
  simp only [hh]
  show String.mk (b :: bs) = p
  rw [← hh]

/-- C5: for a conflicting id of the form non-digit-prefix + digit-suffix,
and activities whose ids decompose the same way, the ripple shift rewrites
each report's activity list pointwise, incrementing by one (and re-padding
to five digits) the numeric suffix of exactly those activities whose
suffix is at least the conflict number and whose prefix matches the
conflict prefix case-insensitively, and leaving every other activity's
id — and every other field — unchanged. -/
theorem rippleShift_spec (cp cd : String) (reports : List DailyReport)
    (hcp : cp ≠ "") (hcpn : ∀ ch ∈ cp.data, ch.isDigit = false)
    (hcd : cd ≠ "") (hcdd : ∀ ch ∈ cd.data, ch.isDigit = true) :
    rippleShiftActivityIds (cp ++ cd) reports =
      reports.map (fun r =>
        { r with activities := r.activities.map (rippleShiftActivity cp (digitsVal cd)) })
    ∧ (∀ (a : ActivityEntry) (p d : String), a.activityId = p ++ d →
        p ≠ "" → (∀ ch ∈ p.data, ch.isDigit = false) →
        d ≠ "" → (∀ ch ∈ d.data, ch.isDigit = true) →
        rippleShiftActivity cp (digitsVal cd) a =
          if jsToUpper p = jsToUpper cp ∧ digitsVal cd ≤ digitsVal d then
            { a with activityId := p ++ padStart5 (toString (digitsVal d + 1)) }
          else a) := by
  constructor
  · unfold rippleShiftActivityIds
    rw [firstDigitSplit_append cp cd hcpn hcd hcdd]
    simp only [if_neg hcp]
  · intro a p d ha hpne hpn hdne hdd
    have hn : getNum (p ++ d) = digitsVal d := getNum_append p d hpn hdne hdd
    have hpfx : leadingNonDigitsOr (p ++ d) cp = p :=
      leadingNonDigitsOr_append p d cp hpne hpn hdne hdd
    unfold rippleShiftActivity
    simp only [ha, hn, hpfx]

/-- C5 witness: conflict `ACT-00002` over one report holding `ACT-00001`
(below the conflict, unchanged) and `ACT-00003` (at or above, shifted to
`ACT-00004`). -/
theorem rippleShift_spec_witness :
    rippleShiftActivityIds ("ACT-" ++ "00002")
      [{ blankReport with activities :=
          [{ blankActivity with activityId := "ACT-00001" },
           { blankActivity with activityId := "ACT-00003" }] }] =
      [{ blankReport with activities :=
          [{ blankActivity with activityId := "ACT-00001" },
           { blankActivity with activityId := "ACT-00004" }] }] := by
  have h := (rippleShift_spec "ACT-" "00002"
    [{ blankReport with activities :=
        [{ blankActivity with activityId := "ACT-00001" },
         { blankActivity with activityId := "ACT-00003" }] }]
    (by decide) (by decide) (by decide) (by decide)).1
  rw [h]
  decide

/-! ## C7: CSV field escaping -/

/-- C7 counterexample: the positional exporter's escaper emits the string
`"5\n"` verbatim — its trailing newline included and unquoted — because
the value passes the JavaScript numeric-conversion fast path (`Number`
trims the newline), refuting standard CSV quoting for every field. -/
theorem cEscape_numeric_newline_unquoted :
    cEscape (some "5\n") = "5\n"
    ∧ ("5\n".data.any (fun ch => ch == '\n')) = true
    ∧ cEscape (some "5\n") ≠ "\"5\n\"" := by
  refine ⟨by decide, by decide, by decide⟩

/-- C7 (amended): the full-history exporter's `escapeCSV` follows standard
CSV quoting (wrapping in quotes with internal quotes doubled exactly when
the field contains a comma, quote, newline or carriage return); the
positional exporter's escaper does the same for comma/quote/newline,
EXCEPT that any value accepted by JavaScript numeric conversion whose
trimmed form is non-empty is emitted verbatim. -/
theorem csvEscape_spec :
    (escapeCSV none = "")
    ∧ (∀ s : String,
        s.data.any (fun ch => ch == '"' || ch == ',' || ch == '\n' || ch == '\r') = true →
        escapeCSV (some s) = "\"" ++ dupQuotes s ++ "\"")
    ∧ (∀ s : String,
        s.data.any (fun ch => ch == '"' || ch == ',' || ch == '\n' || ch == '\r') = false →
        escapeCSV (some s) = s)
    ∧ (cEscape none = "")
    ∧ (∀ s : String, jsStringIsNumeric s = true → jsTrim s ≠ "" →
        cEscape (some s) = s)
    ∧ (∀ s : String, ¬ (jsStringIsNumeric s = true ∧ jsTrim s ≠ "") →
        s.data.any (fun ch => ch == ',' || ch == '"' || ch == '\n') = true →
        cEscape (some s) = "\"" ++ dupQuotes s ++ "\"")
    ∧ (∀ s : String, ¬ (jsStringIsNumeric s = true ∧ jsTrim s ≠ "") →
        s.data.any (fun ch => ch == ',' || ch == '"' || ch == '\n') = false →
        cEscape (some s) = s) := by
  have hfalse : ∀ s : String, ¬ (jsStringIsNumeric s = true ∧ jsTrim s ≠ "") →
      (jsStringIsNumeric s && !(jsTrim s == "")) = false := by
    intro s hn
    by_cases hnum : jsStringIsNumeric s = true
    · by_cases htr : jsTrim s = ""
      · simp [hnum, htr]
      · exact absurd ⟨hnum, htr⟩ hn
    · have : jsStringIsNumeric s = false := by
        simpa using hnum
      simp [this]
  refine ⟨rfl, ?_, ?_, rfl, ?_, ?_, ?_⟩
  · intro s h
    simp only [escapeCSV]
    rw [if_pos h]
  · intro s h
    simp only [escapeCSV]
    rw [if_neg]
    simp [h]
  · intro s hnum htr
    have hcond : (jsStringIsNumeric s && !(jsTrim s == "")) = true := by
      simp [hnum, htr]
    simp only [cEscape]
    rw [if_pos hcond]
  · intro s hn h
    simp only [cEscape]
    rw [if_neg, if_pos h]
    simp [hfalse s hn]
  · intro s hn h
    simp only [cEscape]
    rw [if_neg, if_neg]
    · simp [h]
    · simp [hfalse s hn]

/-- C7 witness: the amended theorem applied to a comma-bearing field for
the standard exporter and to a plain numeric field for the positional
exporter's fast path. -/
theorem csvEscape_spec_witness :
    escapeCSV (some "a,b") = "\"a,b\"" ∧ cEscape (some "12") = "12" := by
  constructor
  · have h := csvEscape_spec.2.1 "a,b" (by decide)
    rw [h]
    decide
  · exact csvEscape_spec.2.2.2.2.1 "12" (by decide) (by decide)

end Project360
